import Mathlib

/-!
Verification development for the crashpad C wrapper
(src/crashpad-sys/crashpad_wrapper.cc, src/crashpad-sys/wrapper.h).

The wrapper is a thin C-linkage adapter over the native crashpad client
library.  We embed its marshalling logic shallowly:

* a `const char*` argument is an `Option String` (`none` = null pointer);
* the C preprocessor's platform macros become Boolean functions on an
  enumeration of the supported build targets;
* constructing a `std::string` (or `base::FilePath`) from a null pointer is
  undefined behaviour, which the embedding surfaces as `Option.none` results;
* the wrapped library's methods are opaque parameters (a function argument
  for `StartHandler`, an inductive event for the dump primitives), so the
  theorems quantify over every possible library behaviour.
-/

set_option autoImplicit false

/-- A `const char*` crossing the C ABI: `none` models the null pointer,
`some s` a valid null-terminated string. -/
abbrev CStr := Option String

/-- The build targets the wrapper's preprocessor conditionals distinguish.
`crashpad_wrapper.cc` mentions `_WIN32`, `__APPLE__` (split by
`TARGET_OS_IOS`), `__linux__` and `__ANDROID__`. -/
inductive Platform where
  | windows
  | macos
  | ios
  | linux
  | android
deriving DecidableEq

/-- Whether the C macro `_WIN32` is defined for this target. -/
def definesWin32 : Platform → Bool
  | .windows => true
  | _ => false

/-- Whether the C macro `__APPLE__` is defined for this target. -/
def definesApple : Platform → Bool
  | .macos => true
  | .ios => true
  | _ => false

/-- Whether `TARGET_OS_IOS` (from TargetConditionals.h, included under
`__APPLE__`) is defined and nonzero for this target. -/
def targetOSIsIOS : Platform → Bool
  | .ios => true
  | _ => false

/-- Whether the C macro `__linux__` is defined for this target.  Android
toolchains target the Linux kernel and define `__linux__` as well. -/
def definesLinux : Platform → Bool
  | .linux => true
  | .android => true
  | _ => false

/-- Whether the C macro `__ANDROID__` is defined for this target. -/
def definesAndroid : Platform → Bool
  | .android => true
  | _ => false

/-- One step of `annotations[annotations_keys[i]] = annotations_values[i]`:
insert-or-assign into a key-sorted association list, the shallow embedding of
`std::map<std::string, std::string>` subscript assignment. -/
def mapInsert (k v : String) : List (String × String) → List (String × String)
  | [] => [(k, v)]
  | (k', v') :: rest =>
    if k < k' then (k, v) :: (k', v') :: rest
    else if k = k' then (k, v) :: rest
    else (k', v') :: mapInsert k v rest

/-- Lookup in the association list representing the `std::map`. -/
def alookup (q : String) : List (String × String) → Option String
  | [] => none
  | (k, v) :: rest => if q = k then some v else alookup q rest

/-- The annotation-marshalling loop of `crashpad_client_start_handler` and
`crashpad_client_start_in_process_handler`:
`for (i = 0; i < annotations_count; i++) annotations[keys[i]] = values[i];`.
The two C arrays share `annotations_count` (equal length is
caller-guaranteed, per the header contract), so they are embedded as the
list of index-aligned pairs. -/
def buildAnnotations (keys values : List String) : List (String × String) :=
  (List.zip keys values).foldl (fun m kv => mapInsert kv.1 kv.2 m) []

/-- The extra-arguments loop body of `crashpad_client_start_handler`:
`for (i = 0; i < extra_arguments_count; i++) if (extra_arguments[i]) push;`.
Walking past the end of the array (count larger than the array) is an
out-of-bounds read, surfaced as `none`. -/
def argsLoop : List CStr → Nat → Option (List String)
  | _, 0 => some []
  | [], _ + 1 => none
  | none :: rest, n + 1 => argsLoop rest n
  | some s :: rest, n + 1 => (argsLoop rest n).map (fun l => s :: l)

/-- The whole extra-arguments marshalling of `crashpad_client_start_handler`:
the loop runs only under `if (extra_arguments != nullptr)`, so a null array
pointer yields the empty vector regardless of the count. -/
def buildArguments (extra : Option (List CStr)) (count : Nat) :
    Option (List String) :=
  match extra with
  | none => some []
  | some arr => argsLoop arr count

/-- The argument record handed to `CrashpadClient::StartHandler` after
marshalling. -/
structure StartHandlerCall where
  handler : String
  database : String
  metrics : String
  url : String
  annotations : List (String × String)
  arguments : List String
  restartable : Bool
  asynchronous_start : Bool
deriving DecidableEq

/-- The `asynchronous_start` flag computed by the wrapper: `false` under
`#ifdef __linux__`, `true` otherwise.  It depends only on the build target,
never on a caller argument. -/
def asynchronousStartFlag (p : Platform) : Bool :=
  !(definesLinux p)

/-- Marshalling performed by `crashpad_client_start_handler` before the
library call.  The three path parameters are fed to `std::string` /
`base::FilePath` construction unguarded, so a null pointer there is
undefined behaviour (`none`); only `url` has the `url ? url : ""` guard. -/
def crashpad_client_start_handler_marshal (p : Platform)
    (handler_path database_path metrics_path url : CStr)
    (keys values : List String)
    (extra : Option (List CStr)) (count : Nat) :
    Option StartHandlerCall :=
  match handler_path, database_path, metrics_path with
  | some h, some d, some m =>
    (buildArguments extra count).map (fun args =>
      { handler := h
        database := d
        metrics := m
        url := url.getD ""
        annotations := buildAnnotations keys values
        arguments := args
        restartable := true
        asynchronous_start := asynchronousStartFlag p })
  | _, _, _ => none

/-- The full `crashpad_client_start_handler`, parameterised by the wrapped
library's `StartHandler` method; it returns the library's Boolean verbatim
(`none` models the undefined behaviour of a null path pointer). -/
def crashpad_client_start_handler (p : Platform)
    (StartHandler : StartHandlerCall → Bool)
    (handler_path database_path metrics_path url : CStr)
    (keys values : List String)
    (extra : Option (List CStr)) (count : Nat) :
    Option Bool :=
  match handler_path, database_path, metrics_path with
  | some h, some d, some m =>
    (buildArguments extra count).map (fun args =>
      StartHandler
        { handler := h
          database := d
          metrics := m
          url := url.getD ""
          annotations := buildAnnotations keys values
          arguments := args
          restartable := true
          asynchronous_start := asynchronousStartFlag p })
  | _, _, _ => none

/-- The argument record handed to
`CrashpadClient::StartCrashpadInProcessHandler` after marshalling. -/
structure StartInProcessCall where
  database : String
  url : String
  annotations : List (String × String)
deriving DecidableEq

/-- Marshalling performed by `crashpad_client_start_in_process_handler`
(iOS-only): `database_path` is fed to `base::FilePath` unguarded (null is
undefined behaviour), `url` has the `url ? url : ""` guard, annotations use
the same `std::map` loop as `crashpad_client_start_handler`. -/
def crashpad_client_start_in_process_handler_marshal
    (database_path url : CStr) (keys values : List String) :
    Option StartInProcessCall :=
  match database_path with
  | some d =>
    some { database := d
           url := url.getD ""
           annotations := buildAnnotations keys values }
  | none => none

/-- The allocator state behind `new CrashpadClient()` / `delete`: a bump
allocator of handles together with the set of live ones. -/
structure ClientHeap where
  nextId : Nat
  live : List Nat

/-- Heap well-formedness: every live handle was previously allocated. -/
def heapWF (h : ClientHeap) : Prop :=
  ∀ c ∈ h.live, c < h.nextId

/-- `crashpad_client_new`: `return new CrashpadClient();` — allocation of a
fresh native client.  The return type has no failure case: the function
always hands back a handle. -/
def crashpad_client_new (h : ClientHeap) : Nat × ClientHeap :=
  (h.nextId, { nextId := h.nextId + 1, live := h.nextId :: h.live })

/-- `crashpad_client_delete`: `delete static_cast<CrashpadClient*>(client);`. -/
def crashpad_client_delete (c : Nat) (h : ClientHeap) : ClientHeap :=
  { h with live := h.live.erase c }

/-- `crashpad_client_use_system_default_handler`: calls the library's void
method `UseSystemDefaultHandler()` on the client and then returns `true`
unconditionally.  The library method is an opaque parameter. -/
def crashpad_client_use_system_default_handler {Client : Type}
    (UseSystemDefaultHandler : Client → Client) (c : Client) :
    Client × Bool :=
  (UseSystemDefaultHandler c, true)

/-- The extern-"C" symbols declared by the wrapper. -/
inductive CSymbol where
  | client_new
  | client_delete
  | start_handler
  | set_handler_ipc_pipe
  | set_handler_mach_service
  | use_system_default_handler
  | start_in_process_handler
  | process_intermediate_dumps
  | start_processing_pending_reports
  | dump_without_crash
  | dump_without_crash_with_context
deriving DecidableEq

/-- Which symbols a given build target compiles, read off the preprocessor
conditionals of `crashpad_wrapper.cc` (`#ifdef _WIN32`,
`#if defined(__APPLE__)`,
`#if defined(__APPLE__) && defined(TARGET_OS_IOS) && TARGET_OS_IOS`, and the
platform cascade guarding the dump functions).  `false` means the symbol is
absent from the build — there is no runtime stub. -/
def compiledSurface (p : Platform) : CSymbol → Bool
  | .client_new => true
  | .client_delete => true
  | .start_handler => true
  | .set_handler_ipc_pipe => definesWin32 p
  | .set_handler_mach_service => definesApple p
  | .use_system_default_handler => definesApple p
  | .start_in_process_handler => definesApple p && targetOSIsIOS p
  | .process_intermediate_dumps => definesApple p && targetOSIsIOS p
  | .start_processing_pending_reports => definesApple p && targetOSIsIOS p
  | .dump_without_crash =>
    definesWin32 p || definesApple p || definesLinux p || definesAndroid p
  | .dump_without_crash_with_context =>
    definesWin32 p || definesApple p || definesLinux p || definesAndroid p

/-- The library primitive a dump entry point ends up invoking, with the CPU
context value it passes.  `Ctx` abstracts the platform-specific context type
(`CONTEXT` on Windows, `NativeCPUContext` elsewhere). -/
inductive DumpPrimitive (Ctx : Type) where
  | dumpWithoutCrash (ctx : Ctx)
  | simulateCrash (ctx : Ctx)
deriving DecidableEq

/-- `crashpad_dump_without_crash`: captures the current CPU context with
`CaptureContext` and dispatches per platform.  `captured` stands for the
context value `CaptureContext` produces at the call; the `none` branch is
the `#error` case for unsupported targets. -/
def crashpad_dump_without_crash {Ctx : Type} (p : Platform) (captured : Ctx) :
    Option (DumpPrimitive Ctx) :=
  if definesWin32 p then
    some (.dumpWithoutCrash captured)
  else if definesApple p then
    if targetOSIsIOS p then
      some (.dumpWithoutCrash captured)
    else
      some (.simulateCrash captured)
  else if definesLinux p || definesAndroid p then
    some (.dumpWithoutCrash captured)
  else
    none

/-- `crashpad_dump_without_crash_with_context`: same per-platform dispatch,
on a caller-supplied pre-captured context. -/
def crashpad_dump_without_crash_with_context {Ctx : Type} (p : Platform)
    (ctx : Ctx) : Option (DumpPrimitive Ctx) :=
  if definesWin32 p then
    some (.dumpWithoutCrash ctx)
  else if definesApple p then
    if targetOSIsIOS p then
      some (.dumpWithoutCrash ctx)
    else
      some (.simulateCrash ctx)
  else if definesLinux p || definesAndroid p then
    some (.dumpWithoutCrash ctx)
  else
    none

/-- Key-sortedness of the association list representing the `std::map`. -/
def annSorted (m : List (String × String)) : Prop :=
  m.Pairwise (fun a b => a.1 < b.1)

theorem mapInsert_cons_lt {k k' : String} (v v' : String)
    (rest : List (String × String)) (hlt : k < k') :
    mapInsert k v ((k', v') :: rest) = (k, v) :: (k', v') :: rest := by
  simp [mapInsert, hlt]

theorem mapInsert_cons_eq {k : String} (v v' : String)
    (rest : List (String × String)) :
    mapInsert k v ((k, v') :: rest) = (k, v) :: rest := by
  simp [mapInsert]

theorem mapInsert_cons_gt {k k' : String} (v v' : String)
    (rest : List (String × String)) (hlt : ¬k < k') (hne : k ≠ k') :
    mapInsert k v ((k', v') :: rest) = (k', v') :: mapInsert k v rest := by
  simp [mapInsert, hlt, hne]

theorem alookup_mapInsert (k v q : String) (m : List (String × String)) :
    alookup q (mapInsert k v m) = if q = k then some v else alookup q m := by
  induction m with
  | nil => simp [mapInsert, alookup]
  | cons p rest ih =>
    obtain ⟨k', v'⟩ := p
    rcases lt_trichotomy k k' with hlt | heq | hgt
    · rw [mapInsert_cons_lt v v' rest hlt]
      simp [alookup]
    · subst heq
      by_cases hq : q = k <;> simp [mapInsert_cons_eq v v' rest, alookup, hq]
    · rw [mapInsert_cons_gt v v' rest (not_lt_of_gt hgt) (ne_of_gt hgt)]
      by_cases hq : q = k
      · subst hq
        simp [alookup, ne_of_gt hgt, ih]
      · by_cases hq' : q = k' <;>
          simp [alookup, hq, hq', ne_of_lt hgt, ih]

theorem mem_mapInsert (k v : String) (m : List (String × String)) :
    ∀ x ∈ mapInsert k v m, x.1 = k ∨ x ∈ m := by
  induction m with
  | nil =>
    intro x hx
    simp [mapInsert] at hx
    exact Or.inl (by rw [hx])
  | cons p rest ih =>
    obtain ⟨k', v'⟩ := p
    intro x hx
    rcases lt_trichotomy k k' with hlt | heq | hgt
    · rw [mapInsert_cons_lt v v' rest hlt] at hx
      rcases List.mem_cons.1 hx with rfl | hx
      · exact Or.inl rfl
      · exact Or.inr hx
    · subst heq
      rw [mapInsert_cons_eq v v' rest] at hx
      rcases List.mem_cons.1 hx with rfl | hx
      · exact Or.inl rfl
      · exact Or.inr (List.mem_cons_of_mem _ hx)
    · rw [mapInsert_cons_gt v v' rest (not_lt_of_gt hgt) (ne_of_gt hgt)] at hx
      rcases List.mem_cons.1 hx with rfl | hx
      · exact Or.inr (List.mem_cons_self _ _)
      · rcases ih x hx with h | h
        · exact Or.inl h
        · exact Or.inr (List.mem_cons_of_mem _ h)

theorem mapInsert_sorted (k v : String) (m : List (String × String))
    (hm : annSorted m) : annSorted (mapInsert k v m) := by
  induction m with
  | nil => simp [mapInsert, annSorted]
  | cons p rest ih =>
    obtain ⟨k', v'⟩ := p
    simp only [annSorted, List.pairwise_cons] at hm
    obtain ⟨hhead, htail⟩ := hm
    rcases lt_trichotomy k k' with hlt | heq | hgt
    · simp only [annSorted]
      rw [mapInsert_cons_lt v v' rest hlt]
      refine List.Pairwise.cons ?_ (List.Pairwise.cons hhead htail)
      intro b hb
      rcases List.mem_cons.1 hb with rfl | hb
      · exact hlt
      · exact lt_trans hlt (hhead b hb)
    · subst heq
      simp only [annSorted]
      rw [mapInsert_cons_eq v v' rest]
      exact List.Pairwise.cons hhead htail
    · simp only [annSorted]
      rw [mapInsert_cons_gt v v' rest (not_lt_of_gt hgt) (ne_of_gt hgt)]
      refine List.Pairwise.cons ?_ (ih htail)
      intro b hb
      rcases mem_mapInsert k v rest b hb with h | h
      · rw [h]; exact hgt
      · exact hhead b h

theorem annLoop_sorted (pairs : List (String × String)) :
    ∀ m, annSorted m →
      annSorted (pairs.foldl (fun m kv => mapInsert kv.1 kv.2 m) m) := by
  induction pairs with
  | nil => intro m hm; exact hm
  | cons p ps ih =>
    intro m hm
    exact ih _ (mapInsert_sorted p.1 p.2 m hm)

theorem alookup_annLoop (q : String) (pairs : List (String × String)) :
    alookup q (pairs.foldl (fun m kv => mapInsert kv.1 kv.2 m) [])
      = alookup q pairs.reverse := by
  induction pairs using List.reverseRecOn with
  | nil => rfl
  | append_singleton ps p ih =>
    obtain ⟨k, v⟩ := p
    rw [List.foldl_append, List.reverse_append]
    simp only [List.foldl_cons, List.foldl_nil, List.reverse_cons,
      List.reverse_nil, List.nil_append, List.singleton_append]
    by_cases hq : q = k
    · simp [alookup_mapInsert, alookup, hq]
    · simp [alookup_mapInsert, alookup, hq, ih]

theorem buildAnnotations_keys_nodup (keys values : List String) :
    ((buildAnnotations keys values).map Prod.fst).Nodup := by
  have hs : annSorted (buildAnnotations keys values) :=
    annLoop_sorted (List.zip keys values) [] List.Pairwise.nil
  simp only [annSorted] at hs
  have hp : ((buildAnnotations keys values).map Prod.fst).Pairwise (· < ·) :=
    (List.pairwise_map).2 hs
  exact hp.imp ne_of_lt

theorem argsLoop_full (arr : List CStr) :
    argsLoop arr arr.length
      = some ((arr.filter (fun o => o.isSome)).map (fun o => o.getD "")) := by
  induction arr with
  | nil => rfl
  | cons a rest ih =>
    cases a with
    | none =>
      simpa [argsLoop, List.filter_cons] using ih
    | some s =>
      simp [argsLoop, List.filter_cons, ih]

theorem buildAnnotations_example :
    buildAnnotations ["k1", "k1", "k2"] ["a", "b", "c"]
      = [("k1", "b"), ("k2", "c")] := by
  have h1 : ¬ ("k2" : String) < "k1" := by
    rw [String.lt_iff_toList_lt]; decide
  have h2 : ("k2" : String) ≠ "k1" := by decide
  show mapInsert "k2" "c" (mapInsert "k1" "b" (mapInsert "k1" "a" [])) = _
  rw [show mapInsert "k1" "a" [] = [("k1", "a")] from rfl,
    mapInsert_cons_eq "b" "a" [], mapInsert_cons_gt "c" "b" [] h1 h2]
  rfl

/-- C1: the annotation mapping forwarded by start_handler (and
start_in_process_handler) is key-unique and built by inserting the
(key, value) pairs in index order with last-write-wins on duplicate keys:
its lookup agrees with the last value paired with each key, its key list has
no duplicates, both marshalling routines forward exactly this map, and on
keys = [k1, k1, k2], values = [a, b, c] it has exactly the two entries
(k1, b) and (k2, c). -/
theorem C1_annotations_last_write_wins :
    (∀ (keys values : List String) (q : String),
        alookup q (buildAnnotations keys values)
          = alookup q (List.zip keys values).reverse)
    ∧ (∀ keys values : List String,
        ((buildAnnotations keys values).map Prod.fst).Nodup)
    ∧ (∀ (p : Platform) (hp dp mp u : CStr) (keys values : List String)
        (e : Option (List CStr)) (n : Nat),
        (crashpad_client_start_handler_marshal p hp dp mp u keys values e n).map
            StartHandlerCall.annotations
          = (crashpad_client_start_handler_marshal p hp dp mp u keys values e n).map
            (fun _ => buildAnnotations keys values))
    ∧ (∀ (dp u : CStr) (keys values : List String),
        (crashpad_client_start_in_process_handler_marshal dp u keys values).map
            StartInProcessCall.annotations
          = (crashpad_client_start_in_process_handler_marshal dp u keys values).map
            (fun _ => buildAnnotations keys values))
    ∧ buildAnnotations ["k1", "k1", "k2"] ["a", "b", "c"]
        = [("k1", "b"), ("k2", "c")] := by
  refine ⟨?_, buildAnnotations_keys_nodup, ?_, ?_, ?_⟩
  · intro keys values q
    exact alookup_annLoop q (List.zip keys values)
  · intro p hp dp mp u keys values e n
    cases hp <;> cases dp <;> cases mp <;>
      first
        | rfl
        | (simp only [crashpad_client_start_handler_marshal, Option.map_map]
           rfl)
  · intro dp u keys values
    cases dp <;>
      simp [crashpad_client_start_in_process_handler_marshal]
  · exact buildAnnotations_example

/-- C2: for a non-null extra-arguments array read at its full length, the
marshalled argument vector is defined and equals exactly the non-null
entries in their original relative order, so its length is the count of
non-null entries. -/
theorem C2_extra_arguments_skip_null :
    ∀ arr : List CStr,
      buildArguments (some arr) arr.length
          = some ((arr.filter (fun o => o.isSome)).map (fun o => o.getD ""))
      ∧ ((arr.filter (fun o => o.isSome)).map (fun o => o.getD "")).length
          = arr.countP (fun o => o.isSome) := by
  intro arr
  constructor
  · exact argsLoop_full arr
  · simp [List.countP_eq_length_filter]

/-- C3 counterexample: passing a null handler_path to start_handler is not
the same as passing the empty string — the null path is undefined behaviour
(no marshalled call), refuting the claim that all four string parameters
treat null as empty. -/
theorem C3_counterexample :
    ¬ (crashpad_client_start_handler_marshal Platform.linux none (some "db")
          (some "mx") (some "u") [] [] (some []) 0
        = crashpad_client_start_handler_marshal Platform.linux (some "")
          (some "db") (some "mx") (some "u") [] [] (some []) 0) := by
  decide

/-- C3 (amended): only the url parameter of start_handler and
start_in_process_handler treats a null pointer as the empty string; a null
handler_path, database_path or metrics_path is a precondition violation
(undefined behaviour), not defaulted to empty. -/
theorem C3_null_url_only :
    (∀ (p : Platform) (hp dp mp : CStr) (keys values : List String)
        (e : Option (List CStr)) (n : Nat),
        crashpad_client_start_handler_marshal p hp dp mp none keys values e n
          = crashpad_client_start_handler_marshal p hp dp mp (some "")
              keys values e n)
    ∧ (∀ (dp : CStr) (keys values : List String),
        crashpad_client_start_in_process_handler_marshal dp none keys values
          = crashpad_client_start_in_process_handler_marshal dp (some "")
              keys values)
    ∧ (∀ (p : Platform) (dp mp u : CStr) (keys values : List String)
        (e : Option (List CStr)) (n : Nat),
        crashpad_client_start_handler_marshal p none dp mp u keys values e n
          = none)
    ∧ (∀ (p : Platform) (hp mp u : CStr) (keys values : List String)
        (e : Option (List CStr)) (n : Nat),
        crashpad_client_start_handler_marshal p hp none mp u keys values e n
          = none)
    ∧ (∀ (p : Platform) (hp dp u : CStr) (keys values : List String)
        (e : Option (List CStr)) (n : Nat),
        crashpad_client_start_handler_marshal p hp dp none u keys values e n
          = none)
    ∧ (∀ (u : CStr) (keys values : List String),
        crashpad_client_start_in_process_handler_marshal none u keys values
          = none) := by
  refine ⟨?_, ?_, ?_, ?_, ?_, ?_⟩
  · intro p hp dp mp keys values e n
    cases hp <;> cases dp <;> cases mp <;> rfl
  · intro dp keys values
    cases dp <;> rfl
  · intro p dp mp u keys values e n
    cases dp <;> cases mp <;> rfl
  · intro p hp mp u keys values e n
    cases hp <;> cases mp <;> rfl
  · intro p hp dp u keys values e n
    cases hp <;> cases dp <;> rfl
  · intro u keys values
    rfl

/-- C4 counterexample: Android is a build target distinct from Linux on
which start_handler nevertheless requests a blocking start (Android
toolchains define the __linux__ macro the wrapper tests), refuting the
claim that every platform other than Linux always gets an asynchronous
start. -/
theorem C4_counterexample :
    ¬ (Platform.android = Platform.linux ∨
        (crashpad_client_start_handler_marshal Platform.android (some "h")
            (some "d") (some "m") none [] [] none 0).map
          StartHandlerCall.asynchronous_start = some true) := by
  decide

/-- C4 (amended): the blocking-versus-immediate behaviour of start_handler
is a fixed per-platform constant not influenced by any caller argument: it
requests a blocking start exactly on the targets that define __linux__
(Linux and Android) and an asynchronous start on Windows, macOS and iOS. -/
theorem C4_async_flag_per_platform :
    (∀ (p : Platform) (hp dp mp u : CStr) (keys values : List String)
        (e : Option (List CStr)) (n : Nat),
        (crashpad_client_start_handler_marshal p hp dp mp u keys values e n).map
            StartHandlerCall.asynchronous_start
          = (crashpad_client_start_handler_marshal p hp dp mp u keys values e n).map
            (fun _ => asynchronousStartFlag p))
    ∧ asynchronousStartFlag Platform.linux = false
    ∧ asynchronousStartFlag Platform.android = false
    ∧ asynchronousStartFlag Platform.windows = true
    ∧ asynchronousStartFlag Platform.macos = true
    ∧ asynchronousStartFlag Platform.ios = true := by
  refine ⟨?_, rfl, rfl, rfl, rfl, rfl⟩
  intro p hp dp mp u keys values e n
  cases hp <;> cases dp <;> cases mp <;>
    first
      | rfl
      | (simp only [crashpad_client_start_handler_marshal, Option.map_map]
         rfl)

/-- C5: start_handler returns exactly the Boolean produced by the wrapped
library's StartHandler on the marshalled inputs, for every possible library
behaviour — a pure pass-through with no other failure channel. -/
theorem C5_start_handler_pass_through :
    ∀ (p : Platform) (StartHandler : StartHandlerCall → Bool)
      (hp dp mp u : CStr) (keys values : List String)
      (e : Option (List CStr)) (n : Nat),
      crashpad_client_start_handler p StartHandler hp dp mp u keys values e n
        = (crashpad_client_start_handler_marshal p hp dp mp u keys values e n).map
            StartHandler := by
  intro p SH hp dp mp u keys values e n
  cases hp <;> cases dp <;> cases mp <;>
    first
      | rfl
      | (simp only [crashpad_client_start_handler,
            crashpad_client_start_handler_marshal, Option.map_map]
         rfl)

/-- C6: create_client never fails — on every well-formed allocator state it
returns a handle (the return type has no failure case) that was not live
before the call, is live and caller-owned afterwards, and the allocator
stays well-formed. -/
theorem C6_create_client_never_fails :
    ∀ h : ClientHeap, heapWF h →
      (crashpad_client_new h).1 ∉ h.live
      ∧ (crashpad_client_new h).1 ∈ (crashpad_client_new h).2.live
      ∧ heapWF (crashpad_client_new h).2 := by
  intro h hwf
  refine ⟨?_, ?_, ?_⟩
  · intro hmem
    exact absurd (hwf _ hmem) (lt_irrefl _)
  · exact List.mem_cons_self _ _
  · intro c hc
    rcases List.mem_cons.1 hc with rfl | hc
    · exact Nat.lt_succ_self _
    · exact Nat.lt_succ_of_lt (hwf c hc)

/-- C6 witness: create_client on the empty allocator state. -/
theorem C6_create_client_never_fails_witness :
    (crashpad_client_new (ClientHeap.mk 0 [])).1
        ∉ (ClientHeap.mk 0 []).live
    ∧ (crashpad_client_new (ClientHeap.mk 0 [])).1
        ∈ (crashpad_client_new (ClientHeap.mk 0 [])).2.live
    ∧ heapWF (crashpad_client_new (ClientHeap.mk 0 [])).2 :=
  C6_create_client_never_fails (ClientHeap.mk 0 [])
    (fun c hc => absurd hc (List.not_mem_nil c))

/-- C7: use_system_default_handler always succeeds — for every client and
every behaviour of the library's void method, it invokes that method on the
client and returns true unconditionally; the returned Boolean is never
false. -/
theorem C7_use_system_default_handler_true :
    ∀ (Client : Type) (UseSystemDefaultHandler : Client → Client) (c : Client),
      (crashpad_client_use_system_default_handler UseSystemDefaultHandler c).2
          = true
      ∧ (crashpad_client_use_system_default_handler UseSystemDefaultHandler c).1
          = UseSystemDefaultHandler c :=
  fun _ _ _ => ⟨rfl, rfl⟩

/-- C8: per-platform compiled surface — set_handler_ipc_pipe exists exactly
in the Windows build, set_handler_mach_service and
use_system_default_handler exactly in Apple builds (macOS and iOS),
the in-process trio exactly in the iOS build, and the universal operations
in every build; an operation outside its class is absent from the compiled
surface, not stubbed. -/
theorem C8_platform_surface :
    ∀ p : Platform,
      (compiledSurface p .set_handler_ipc_pipe = true ↔ p = .windows)
      ∧ (compiledSurface p .set_handler_mach_service = true
          ↔ (p = .macos ∨ p = .ios))
      ∧ (compiledSurface p .use_system_default_handler = true
          ↔ (p = .macos ∨ p = .ios))
      ∧ (compiledSurface p .start_in_process_handler = true ↔ p = .ios)
      ∧ (compiledSurface p .process_intermediate_dumps = true ↔ p = .ios)
      ∧ (compiledSurface p .start_processing_pending_reports = true
          ↔ p = .ios)
      ∧ compiledSurface p .client_new = true
      ∧ compiledSurface p .client_delete = true
      ∧ compiledSurface p .start_handler = true
      ∧ compiledSurface p .dump_without_crash = true
      ∧ compiledSurface p .dump_without_crash_with_context = true := by
  intro p
  cases p <;> decide

/-- C9: a null extra-arguments array makes start_handler forward the empty
argument list, whatever the count — the count is ignored and the null array
is never read, so the call is well-defined even with a nonzero count. -/
theorem C9_null_extra_array_ignored :
    ∀ n : Nat, buildArguments none n = some [] :=
  fun _ => rfl

/-- C10: on every supported platform, the no-argument dump entry point
invokes the same underlying primitive (DumpWithoutCrash, or SimulateCrash
on desktop macOS) on the captured context as the with-context entry point
does on that same context value. -/
theorem C10_dump_entry_points_equivalent :
    ∀ (Ctx : Type) (p : Platform) (ctx : Ctx),
      crashpad_dump_without_crash p ctx
          = crashpad_dump_without_crash_with_context p ctx
      ∧ crashpad_dump_without_crash_with_context Platform.macos ctx
          = some (DumpPrimitive.simulateCrash ctx)
      ∧ crashpad_dump_without_crash_with_context Platform.windows ctx
          = some (DumpPrimitive.dumpWithoutCrash ctx)
      ∧ crashpad_dump_without_crash_with_context Platform.ios ctx
          = some (DumpPrimitive.dumpWithoutCrash ctx)
      ∧ crashpad_dump_without_crash_with_context Platform.linux ctx
          = some (DumpPrimitive.dumpWithoutCrash ctx)
      ∧ crashpad_dump_without_crash_with_context Platform.android ctx
          = some (DumpPrimitive.dumpWithoutCrash ctx) := by
  intro Ctx p ctx
  refine ⟨?_, rfl, rfl, rfl, rfl, rfl⟩
  cases p <;> rfl
